import Mathlib

/-! Shallow embedding of the cognitive enrichment pipeline of the
news-curator repository (src/services/cognitive/): entity-extraction
response handling, causal relationship mapping, fact checking, impact
summarization and the orchestrator.  Python floats are modelled as
rationals, decoded JSON values as an inductive type, and the external
HTTP lookups / LLM calls as oracle parameters.  Mutation of pydantic
objects is modelled by explicit state passing. -/

/-- JSON-like values as decoded from inference or lookup responses
(the result of json.loads). -/
inductive JVal where
  | null : JVal
  | bool : Bool → JVal
  | num : ℚ → JVal
  | str : String → JVal
  | arr : List JVal → JVal
  | obj : List (String × JVal) → JVal

/-- Entity model from src/shared/models/events.py (pydantic Entity).
The metadata dict is an association list with unique keys in practice. -/
structure Entity where
  name : String
  type : String
  confidence : ℚ
  metadata : List (String × JVal)
  industry : Option String
  role : Option String
  country : Option String
  severity : Option String

/-- CausalRelationship model from src/shared/models/events.py. -/
structure CausalRelationship where
  subject : Entity
  action : String
  object : Entity
  sentiment : ℚ
  confidence : ℚ
  reasoning : String

/-- ImpactSummary model from src/shared/models/events.py. -/
structure ImpactSummary where
  summary : String
  severity : Int
  affected_sectors : List String
  key_stakeholders : List String

/-- StructuredGraphEvent from src/shared/models/events.py.  The
processing_timestamp field is wall-clock time and is omitted from the
embedding; llm_model_used keeps its pydantic default when not supplied. -/
structure StructuredGraphEvent where
  article_id : String
  entities : List Entity
  relationships : List CausalRelationship
  impact_summary : ImpactSummary
  llm_model_used : String
  fact_check_passed : Bool
  hallucination_flags : List String

/-- Outcome of one LLM inference call as seen by the calling stage:
a transport/API exception, a json.loads failure, or a decoded JSON value. -/
inductive InferResult where
  | apiError : InferResult
  | badJson : InferResult
  | ok : JVal → InferResult

/-- Instrumentation record for CognitiveProcessor.process_article: which
pipeline stages were invoked for the document. -/
structure StageCalls where
  relationshipMapping : Bool
  validation : Bool
  summarization : Bool

/-- First-match lookup in a decoded JSON object (python dict access). -/
def lookupKey (key : String) : List (String × JVal) → Option JVal
  | [] => none
  | p :: rest => if p.1 = key then some p.2 else lookupKey key rest

/-- Extract a python str from a JSON value. -/
def asString : JVal → Option String
  | JVal.str s => some s
  | _ => none

/-- Extract a python number from a JSON value. -/
def asNum : JVal → Option ℚ
  | JVal.num q => some q
  | _ => none

/-- Extract a list of strings from a JSON value (pydantic List[str]). -/
def asStringList : JVal → Option (List String)
  | JVal.arr l => l.mapM asString
  | _ => none

/-- Membership test for a key in a metadata dict. -/
def hasKey : List (String × JVal) → String → Bool
  | [], _ => false
  | p :: rest, k => decide (p.1 = k) || hasKey rest k

/-- Python dict single-key assignment d[k] = v: replace in place when the
key exists, append otherwise (insertion order preserved). -/
def dictInsert (m : List (String × JVal)) (k : String) (v : JVal) :
    List (String × JVal) :=
  if hasKey m k then m.map (fun p => if p.1 = k then (k, v) else p)
  else m ++ [(k, v)]

/-- Python dict.update(new): assign every pair of new into m. -/
def dictUpdate (m new : List (String × JVal)) : List (String × JVal) :=
  new.foldl (fun acc p => dictInsert acc p.1 p.2) m

/-- First-match read access for metadata dicts. -/
def dictFind : List (String × JVal) → String → Option JVal
  | [], _ => none
  | p :: rest, k => if p.1 = k then some p.2 else dictFind rest k

/-- Result dictionary produced by the fact-checker lookups
(src/services/cognitive/fact_checker.py): a validated flag, an optional
confidence ceiling, an optional failure reason and extra metadata. -/
structure ValidationResult where
  validated : Bool
  confidence : Option ℚ
  reason : Option String
  metadata : List (String × JVal)

/-- The FactChecker instance cache validation_cache, keyed by the
f-string name:type (fact_checker.py line 163). -/
abbrev Cache := List (String × ValidationResult)

/-- First-match lookup in the validator cache. -/
def cacheFind : Cache → String → Option ValidationResult
  | [], _ => none
  | p :: rest, k => if p.1 = k then some p.2 else cacheFind rest k

/-- Cache key for an entity, fact_checker.py line 163. -/
def cacheKey (e : Entity) : String := e.name ++ ":" ++ e.type

/-- Pass-through result for entities of unrecognized type,
fact_checker.py line 178. -/
def skipped_result (e : Entity) : ValidationResult :=
  ⟨true, some e.confidence, none, [("skipped", JVal.bool true)]⟩

/-- FactChecker.validate_entity (fact_checker.py lines 153-186).  The
Crunchbase and Wikidata HTTP lookups are oracle parameters cb and wd;
the lru_cache on them is behaviourally the identity for a pure oracle.
Returns the validation result and the updated instance cache. -/
def validate_entity (cb : String → ValidationResult)
    (wd : String → String → ValidationResult)
    (cache : Cache) (e : Entity) : ValidationResult × Cache :=
  match cacheFind cache (cacheKey e) with
  | some r => (r, cache)
  | none =>
      let result :=
        if e.type = "company" then cb e.name
        else if e.type = "person" ∨ e.type = "location" ∨ e.type = "event" then
          wd e.name e.type
        else skipped_result e
      (result, (cacheKey e, result) :: cache)

/-- In-place confidence and metadata mutation performed on a validated
entity by FactChecker.validate_batch (fact_checker.py lines 205-210). -/
def apply_validation (e : Entity) (r : ValidationResult) : Entity :=
  match r.confidence with
  | some c =>
      ⟨e.name, e.type, min e.confidence c, dictUpdate e.metadata r.metadata,
       e.industry, e.role, e.country, e.severity⟩
  | none =>
      ⟨e.name, e.type, e.confidence, dictUpdate e.metadata r.metadata,
       e.industry, e.role, e.country, e.severity⟩

/-- Hallucination flag string built by FactChecker.validate_batch
(fact_checker.py lines 222-224). -/
def mk_flag (e : Entity) (r : ValidationResult) : String :=
  e.name ++ " (" ++ e.type ++ "): " ++ r.reason.getD "unknown"

/-- FactChecker.validate_batch (fact_checker.py lines 188-236): validate
each entity in order against the shared instance cache, collecting the
mutated validated entities and the hallucination flag strings. -/
def validate_batch (cb : String → ValidationResult)
    (wd : String → String → ValidationResult) :
    Cache → List Entity → List Entity × List String × Cache
  | cache, [] => ([], [], cache)
  | cache, e :: es =>
      let pr := validate_entity cb wd cache e
      let rest := validate_batch cb wd pr.2 es
      if pr.1.validated then
        (apply_validation e pr.1 :: rest.1, rest.2.1, rest.2.2)
      else
        (rest.1, mk_flag e pr.1 :: rest.2.1, rest.2.2)

/-- Trace of a batch validation: each input entity paired with the
validation result it receives, threading the instance cache exactly as
validate_batch does. -/
def batchTrace (cb : String → ValidationResult)
    (wd : String → String → ValidationResult) :
    Cache → List Entity → List (Entity × ValidationResult) × Cache
  | cache, [] => ([], cache)
  | cache, e :: es =>
      let pr := validate_entity cb wd cache e
      let rest := batchTrace cb wd pr.2 es
      ((e, pr.1) :: rest.1, rest.2)

/-- Contribution of one trace entry to the validated list. -/
def passedOf (p : Entity × ValidationResult) : Option Entity :=
  if p.2.validated then some (apply_validation p.1 p.2) else none

/-- Boolean test that a trace entry failed validation. -/
def failedB (p : Entity × ValidationResult) : Bool := !p.2.validated

/-- Flag string contributed by a failing trace entry. -/
def flagOf (p : Entity × ValidationResult) : String := mk_flag p.1 p.2

/-- Response unwrapping of CausalMapper.extract_relationships
(causal_mapper.py lines 76-82): a dict with a relationships key is
unwrapped, any other dict is wrapped as a single-element list, and
every non-dict value is used as-is. -/
def unwrap_relationships (j : JVal) : JVal :=
  match j with
  | JVal.obj kvs =>
      match lookupKey "relationships" kvs with
      | some v => v
      | none => JVal.arr [JVal.obj kvs]
  | other => other

/-- Response unwrapping of EntityExtractor.refine_with_llm
(entity_extractor.py lines 119-121): a dict with an entities key is
unwrapped, every other value is used as-is. -/
def unwrap_entities (j : JVal) : JVal :=
  match j with
  | JVal.obj kvs =>
      match lookupKey "entities" kvs with
      | some v => v
      | none => JVal.obj kvs
  | other => other

/-- Mapper-style response normalization generalized over the wrapping
key, following causal_mapper.py lines 76-82. -/
def unwrap_mapper_style (key : String) (j : JVal) : JVal :=
  match j with
  | JVal.obj kvs =>
      match lookupKey key kvs with
      | some v => v
      | none => JVal.arr [JVal.obj kvs]
  | other => other

/-- Extractor-style response normalization generalized over the wrapping
key, following entity_extractor.py lines 119-121. -/
def unwrap_extractor_style (key : String) (j : JVal) : JVal :=
  match j with
  | JVal.obj kvs =>
      match lookupKey key kvs with
      | some v => v
      | none => JVal.obj kvs
  | other => other

/-- Optional string field of a JSON object: absent gives none, a string
gives the value, any other shape is a pydantic validation error. -/
def optStringField (key : String) (kvs : List (String × JVal)) :
    Option (Option String) :=
  match lookupKey key kvs with
  | none => some none
  | some (JVal.str s) => some (some s)
  | some _ => none

/-- Pydantic Entity construction Entity(**d) as performed by the causal
mapper on the subject and object dicts (causal_mapper.py lines 89-91):
name, type and a confidence in the unit interval are required, metadata
defaults to the empty dict, the typed optional fields must be strings
when present and the severity must be a valid EventSeverity value.
Any violation raises and the element is dropped, so the result is an
Option. -/
def parseEntityJ (j : JVal) : Option Entity :=
  match j with
  | JVal.obj kvs =>
      (lookupKey "name" kvs).bind asString |>.bind (fun name =>
      (lookupKey "type" kvs).bind asString |>.bind (fun ty =>
      (lookupKey "confidence" kvs).bind asNum |>.bind (fun conf =>
      (match lookupKey "metadata" kvs with
       | none => some []
       | some (JVal.obj m) => some m
       | some _ => none).bind (fun md =>
      (optStringField "industry" kvs).bind (fun ind =>
      (optStringField "role" kvs).bind (fun role =>
      (optStringField "country" kvs).bind (fun country =>
      (match lookupKey "severity" kvs with
       | none => some none
       | some (JVal.str s) =>
           if s = "low" ∨ s = "medium" ∨ s = "high" ∨ s = "critical" then
             some (some s)
           else none
       | some _ => none).bind (fun sev =>
      if 0 ≤ conf ∧ conf ≤ 1 then
        some ⟨name, ty, conf, md, ind, role, country, sev⟩
      else none))))))))
  | _ => none

/-- Per-element parse of one relationship dict (causal_mapper.py lines
86-98): nested entities are reconstructed, the action verb is upper-cased
at parse time, sentiment and confidence must be in range, and any
per-element failure drops just that element. -/
def parseRelJ (j : JVal) : Option CausalRelationship :=
  match j with
  | JVal.obj kvs =>
      (lookupKey "subject" kvs).bind parseEntityJ |>.bind (fun subj =>
      (lookupKey "action" kvs).bind asString |>.bind (fun act =>
      (lookupKey "object" kvs).bind parseEntityJ |>.bind (fun ob =>
      (lookupKey "sentiment" kvs).bind asNum |>.bind (fun sent =>
      (lookupKey "confidence" kvs).bind asNum |>.bind (fun conf =>
      (lookupKey "reasoning" kvs).bind asString |>.bind (fun reas =>
      if -1 ≤ sent ∧ sent ≤ 1 ∧ 0 ≤ conf ∧ conf ≤ 1 then
        some ⟨subj, act.toUpper, ob, sent, conf, reas⟩
      else none))))))
  | _ => none

/-- CausalMapper.extract_relationships (causal_mapper.py lines 29-116).
The LLM call is an oracle parameter giving the response for this call;
the returned Bool instruments whether the inference capability was
invoked (the client.chat.completions.create call at line 66).  A
transport error or undecodable response yields the empty list via the
except branches; a decoded non-list after unwrapping yields the empty
list because every element access fails. -/
def extract_relationships (resp : InferResult) (article_text : String)
    (entities : List Entity) : List CausalRelationship × Bool :=
  if entities.length < 2 then ([], false)
  else
    match resp with
    | InferResult.apiError => ([], true)
    | InferResult.badJson => ([], true)
    | InferResult.ok j =>
        (match unwrap_relationships j with
         | JVal.arr elems => elems.filterMap parseRelJ
         | _ => [], true)

/-- CausalMapper.filter_by_confidence (causal_mapper.py lines 118-142). -/
def filter_by_confidence (relationships : List CausalRelationship)
    (threshold : ℚ) : List CausalRelationship :=
  relationships.filter (fun r => decide (threshold ≤ r.confidence))

/-- Decoding of the impact-summary response into the pydantic
ImpactSummary (impact_summarizer.py lines 86-94): summary, severity and
affected_sectors are required, key_stakeholders defaults to the empty
list, the severity must be an integer in 1..10 and the summary at most
500 characters (pydantic field constraints).  Any failure raises into
the generic except branch, so the result is an Option. -/
def decode_summary (j : JVal) : Option ImpactSummary :=
  match j with
  | JVal.obj kvs =>
      (lookupKey "summary" kvs).bind asString |>.bind (fun s =>
      (lookupKey "severity" kvs).bind asNum |>.bind (fun sev =>
      (lookupKey "affected_sectors" kvs).bind asStringList |>.bind (fun secs =>
      (match lookupKey "key_stakeholders" kvs with
       | none => some []
       | some v => asStringList v).bind (fun stake =>
      if sev.den = 1 ∧ 1 ≤ sev ∧ sev ≤ 10 ∧ s.length ≤ 500 then
        some ⟨s, sev.num, secs, stake⟩
      else none))))
  | _ => none

/-- ImpactSummarizer.generate_summary (impact_summarizer.py lines
28-124).  The LLM call is an oracle parameter.  A json.loads failure
returns the first degraded summary (lines 106-115); an API exception or
any decode failure returns the second (lines 117-124). -/
def generate_summary (resp : InferResult) (article_text : String)
    (entities : List Entity) (relationships : List CausalRelationship) :
    ImpactSummary :=
  match resp with
  | InferResult.badJson =>
      ⟨"Unable to generate impact summary due to processing error.", 1,
       ["Unknown"], []⟩
  | InferResult.apiError =>
      ⟨"Processing error occurred.", 1, ["Unknown"], []⟩
  | InferResult.ok j =>
      match decode_summary j with
      | some s => s
      | none => ⟨"Processing error occurred.", 1, ["Unknown"], []⟩

/-- Minimal event emitted by CognitiveProcessor.process_article when no
entities were extracted (main.py lines 86-100); llm_model_used keeps its
pydantic default. -/
def minimal_event (articleId : String) : StructuredGraphEvent :=
  ⟨articleId, [], [],
   ⟨"No significant entities or impact detected.", 1, [], []⟩,
   "gpt-4-turbo-preview", true, []⟩

/-- CognitiveProcessor.process_article (main.py lines 61-162).  The
entity-extraction stage and the two LLM calls are oracle parameters; the
fact-checker lookups and instance cache are passed through.  The second
component records which stages were invoked. -/
def process_article (extract : String → List Entity)
    (relInfer : String → List Entity → InferResult)
    (cb : String → ValidationResult)
    (wd : String → String → ValidationResult)
    (cache : Cache)
    (sumInfer : String → List Entity → List CausalRelationship → InferResult)
    (modelName articleId content : String) :
    StructuredGraphEvent × StageCalls :=
  let entities := extract content
  if entities.isEmpty then
    (minimal_event articleId, ⟨false, false, false⟩)
  else
    let rels0 := (extract_relationships (relInfer content entities)
      content entities).1
    let rels := filter_by_confidence rels0 (7 / 10)
    let vb := validate_batch cb wd cache entities
    let passed := vb.2.1.isEmpty
    let summary := generate_summary (sumInfer content vb.1 rels)
      content vb.1 rels
    (⟨articleId, vb.1, rels, summary, modelName, passed, vb.2.1⟩,
     ⟨true, true, true⟩)

/-- Lookup oracle outcome for an entity that no reference source knows:
the not_found failure dictionary of fact_checker.py line 87 / 145. -/
def vr0 : ValidationResult := ⟨false, none, some "not_found", []⟩

/-- Crunchbase oracle that finds nothing. -/
def cb0 : String → ValidationResult := fun _ => vr0

/-- Wikidata oracle that finds nothing. -/
def wd0 : String → String → ValidationResult := fun _ _ => vr0

/-- The FakeCompanyCorp test entity from fact_checker.py line 245. -/
def fkEnt : Entity := ⟨"FakeCompanyCorp", "company", 17 / 20, [], none, none, none, none⟩

/-- An entity of unrecognized type. -/
def eW : Entity := ⟨"X", "weird", 1 / 2, [], none, none, none, none⟩

/-- First unknown-type entity of the cache-hit scenario. -/
def eWA : Entity := ⟨"X", "weird", 9 / 10, [], none, none, none, none⟩

/-- Second unknown-type entity with the same name and type but a higher
extractor confidence. -/
def eWB : Entity := ⟨"X", "weird", 19 / 20, [], none, none, none, none⟩

/-- A document entity used in the relationship-membership scenario. -/
def acmeEnt : Entity := ⟨"Acme", "company", 9 / 10, [], none, none, none, none⟩

/-- A second document entity used in the relationship-membership scenario. -/
def bobEnt : Entity := ⟨"Bob", "person", 9 / 10, [], none, none, none, none⟩

/-- A decoded causal-mapping response whose single relationship names a
subject entity that is not among the document entities. -/
def ghostJson : JVal :=
  JVal.arr [JVal.obj [
    ("subject", JVal.obj [("name", JVal.str "Ghost"),
      ("type", JVal.str "company"), ("confidence", JVal.num (9 / 10))]),
    ("action", JVal.str "Haunts"),
    ("object", JVal.obj [("name", JVal.str "Acme"),
      ("type", JVal.str "company"), ("confidence", JVal.num (9 / 10))]),
    ("sentiment", JVal.num 0),
    ("confidence", JVal.num (9 / 10)),
    ("reasoning", JVal.str "boo")]]

/-- Extraction oracle returning no entities. -/
def extract0 : String → List Entity := fun _ => []

/-- Extraction oracle returning the two document entities. -/
def extract2 : String → List Entity := fun _ => [acmeEnt, bobEnt]

/-- Causal-mapping oracle whose call raises a transport error. -/
def relInfer0 : String → List Entity → InferResult := fun _ _ => InferResult.apiError

/-- Causal-mapping oracle returning the ghost relationship response. -/
def relInferGhost : String → List Entity → InferResult :=
  fun _ _ => InferResult.ok ghostJson

/-- Summarization oracle whose call raises a transport error. -/
def sumInfer0 : String → List Entity → List CausalRelationship → InferResult :=
  fun _ _ _ => InferResult.apiError

/-- Filtering a list twice with the same boolean predicate equals
filtering it once. -/
theorem list_filter_idem {α : Type} (p : α → Bool) :
    ∀ l : List α, (l.filter p).filter p = l.filter p := by
  intro l
  induction l with
  | nil => rfl
  | cons a t ih => cases hp : p a <;> simp [List.filter_cons, hp, ih]

/-- C9: for every relationship list rs and every threshold t,
CausalMapper.filter_by_confidence is idempotent:
filter_by_confidence (filter_by_confidence rs t) t equals
filter_by_confidence rs t. -/
theorem filter_by_confidence_idempotent (rs : List CausalRelationship)
    (t : ℚ) :
    filter_by_confidence (filter_by_confidence rs t) t =
      filter_by_confidence rs t :=
  list_filter_idem _ rs

/-- C5: for every inference outcome and document text, whenever the
entity list has fewer than 2 elements, CausalMapper.extract_relationships
returns the empty list and does not invoke the inference capability. -/
theorem extract_relationships_short_entities (resp : InferResult)
    (txt : String) (es : List Entity) (h : es.length < 2) :
    extract_relationships resp txt es = ([], false) := by
  unfold extract_relationships
  rw [if_pos h]

/-- Witness for C5 at the empty entity list. -/
theorem extract_relationships_short_entities_witness :
    ([] : List Entity).length < 2 ∧
      extract_relationships InferResult.apiError "doc" [] = ([], false) :=
  ⟨by decide,
   extract_relationships_short_entities InferResult.apiError "doc" []
     (by decide)⟩

/-- C4: ImpactSummarizer.generate_summary is a total function, and
whenever the inference call fails or its response cannot be decoded into
the required fields it returns the degraded-mode summary: severity 1,
affected_sectors picking Unknown, a non-empty summary string and no
key stakeholders. -/
theorem generate_summary_degraded_on_failure (resp : InferResult)
    (txt : String) (es : List Entity) (rs : List CausalRelationship)
    (h : resp = InferResult.apiError ∨ resp = InferResult.badJson ∨
      ∃ j, resp = InferResult.ok j ∧ decode_summary j = none) :
    (generate_summary resp txt es rs).severity = 1 ∧
    (generate_summary resp txt es rs).affected_sectors = ["Unknown"] ∧
    (generate_summary resp txt es rs).summary ≠ "" ∧
    (generate_summary resp txt es rs).key_stakeholders = [] := by
  rcases h with h | h | ⟨j, hj, hd⟩
  · subst h
    refine ⟨rfl, rfl, ?_, rfl⟩
    show ("Processing error occurred." : String) ≠ ""
    decide
  · subst h
    refine ⟨rfl, rfl, ?_, rfl⟩
    show ("Unable to generate impact summary due to processing error." :
      String) ≠ ""
    decide
  · subst hj
    have hred : generate_summary (InferResult.ok j) txt es rs =
        ⟨"Processing error occurred.", 1, ["Unknown"], []⟩ := by
      simp [generate_summary, hd]
    rw [hred]
    refine ⟨rfl, rfl, ?_, rfl⟩
    show ("Processing error occurred." : String) ≠ ""
    decide

/-- Witness for C4 at a failing inference call. -/
theorem generate_summary_degraded_on_failure_witness :
    (InferResult.apiError = InferResult.apiError ∨
      InferResult.apiError = InferResult.badJson ∨
      ∃ j, InferResult.apiError = InferResult.ok j ∧
        decode_summary j = none) ∧
    (generate_summary InferResult.apiError "doc" [] []).severity = 1 ∧
    (generate_summary InferResult.apiError "doc" [] []).affected_sectors =
      ["Unknown"] ∧
    (generate_summary InferResult.apiError "doc" [] []).summary ≠ "" ∧
    (generate_summary InferResult.apiError "doc" [] []).key_stakeholders =
      [] :=
  ⟨Or.inl rfl,
   generate_summary_degraded_on_failure InferResult.apiError "doc" [] []
     (Or.inl rfl)⟩

/-- C3: whenever the extraction stage yields no entities,
CognitiveProcessor.process_article returns the minimal structured event
(empty entities and relationships, the fixed severity-1 summary,
fact_check_passed true, no hallucination flags) and invokes none of the
relationship, validation or summarization stages. -/
theorem process_article_empty_short_circuit (extract : String → List Entity)
    (relInfer : String → List Entity → InferResult)
    (cb : String → ValidationResult)
    (wd : String → String → ValidationResult) (cache : Cache)
    (sumInfer : String → List Entity → List CausalRelationship → InferResult)
    (modelName articleId content : String)
    (h : extract content = []) :
    process_article extract relInfer cb wd cache sumInfer modelName
        articleId content =
      (minimal_event articleId, ⟨false, false, false⟩) := by
  simp [process_article, h]

/-- Witness for C3 with a concrete empty extraction. -/
theorem process_article_empty_short_circuit_witness :
    extract0 "doc" = [] ∧
    process_article extract0 relInfer0 cb0 wd0 [] sumInfer0 "gpt-test"
        "art-1" "doc" =
      (minimal_event "art-1", ⟨false, false, false⟩) :=
  ⟨rfl,
   process_article_empty_short_circuit extract0 relInfer0 cb0 wd0 []
     sumInfer0 "gpt-test" "art-1" "doc" rfl⟩

/-- C6 counterexample: on an object holding no recognized key, the
relationship mapper wraps the object as a one-element list while the
entity extractor keeps the object itself, so the two stages do not
normalize every decoded value identically. -/
theorem unwrap_divergence_counterexample :
    unwrap_relationships (JVal.obj []) = JVal.arr [JVal.obj []] ∧
    unwrap_entities (JVal.obj []) = JVal.obj [] ∧
    unwrap_relationships (JVal.obj []) ≠ unwrap_entities (JVal.obj []) := by
  refine ⟨rfl, rfl, ?_⟩
  intro h
  exact JVal.noConfusion h

/-- C6 amended: the two stages normalize bare lists, non-object values
and objects containing their wrapping key identically (each stage is the
generic normalization at its own key), and the two normalizations agree
on a value exactly when that value is not an object lacking the key. -/
theorem unwrap_normalization_agreement (key : String) (j : JVal) :
    unwrap_relationships j = unwrap_mapper_style "relationships" j ∧
    unwrap_entities j = unwrap_extractor_style "entities" j ∧
    (unwrap_mapper_style key j = unwrap_extractor_style key j ↔
      ∀ kvs, j = JVal.obj kvs → lookupKey key kvs ≠ none) := by
  refine ⟨?_, ?_, ?_⟩
  · cases j <;> rfl
  · cases j <;> rfl
  · cases j with
    | obj kvs =>
        cases hk : lookupKey key kvs with
        | some v => simp [unwrap_mapper_style, unwrap_extractor_style, hk]
        | none => simp [unwrap_mapper_style, unwrap_extractor_style, hk]
    | null => simp [unwrap_mapper_style, unwrap_extractor_style]
    | bool b => simp [unwrap_mapper_style, unwrap_extractor_style]
    | num q => simp [unwrap_mapper_style, unwrap_extractor_style]
    | str s => simp [unwrap_mapper_style, unwrap_extractor_style]
    | arr l => simp [unwrap_mapper_style, unwrap_extractor_style]

/-- The trace pairs the input entities, in order, with their results. -/
theorem batchTrace_map_fst (cb : String → ValidationResult)
    (wd : String → String → ValidationResult) :
    ∀ (c : Cache) (es : List Entity),
      (batchTrace cb wd c es).1.map Prod.fst = es := by
  intro c es
  induction es generalizing c with
  | nil => rfl
  | cons e t ih => simp [batchTrace, ih]

/-- validate_batch is the trace with passing entries mutated into the
validated list and failing entries formatted into the flag list. -/
theorem validate_batch_eq_trace (cb : String → ValidationResult)
    (wd : String → String → ValidationResult) :
    ∀ (c : Cache) (es : List Entity),
      validate_batch cb wd c es =
        ((batchTrace cb wd c es).1.filterMap passedOf,
         ((batchTrace cb wd c es).1.filter failedB).map flagOf,
         (batchTrace cb wd c es).2) := by
  intro c es
  induction es generalizing c with
  | nil => rfl
  | cons e t ih =>
      simp only [validate_batch, batchTrace]
      cases hv : (validate_entity cb wd c e).1.validated <;>
        simp [passedOf, failedB, flagOf, hv, ih, List.filterMap_cons,
          List.filter_cons]

/-- A key cached before a validate_entity call is still cached, with the
same result, after it. -/
theorem cacheFind_validate_entity_some (cb : String → ValidationResult)
    (wd : String → String → ValidationResult) (c : Cache) (e : Entity)
    (k : String) (r : ValidationResult) (h : cacheFind c k = some r) :
    cacheFind (validate_entity cb wd c e).2 k = some r := by
  unfold validate_entity
  cases hfind : cacheFind c (cacheKey e) with
  | some rr => exact h
  | none =>
      simp only [cacheFind]
      by_cases hk : cacheKey e = k
      · rw [hk] at hfind
        rw [h] at hfind
        exact Option.noConfusion hfind
      · rw [if_neg hk]
        exact h

/-- Immediately after a validate_entity call its key holds its result. -/
theorem validate_entity_caches_self (cb : String → ValidationResult)
    (wd : String → String → ValidationResult) (c : Cache) (e : Entity) :
    cacheFind (validate_entity cb wd c e).2 (cacheKey e) =
      some (validate_entity cb wd c e).1 := by
  unfold validate_entity
  cases hfind : cacheFind c (cacheKey e) with
  | some rr => exact hfind
  | none => simp [cacheFind]

/-- A cached key survives a whole batch with the same result. -/
theorem cacheFind_batchTrace_some (cb : String → ValidationResult)
    (wd : String → String → ValidationResult) :
    ∀ (c : Cache) (es : List Entity) (k : String) (r : ValidationResult),
      cacheFind c k = some r →
      cacheFind (batchTrace cb wd c es).2 k = some r := by
  intro c es
  induction es generalizing c with
  | nil => intro k r h; exact h
  | cons e t ih =>
      intro k r h
      simp only [batchTrace]
      exact ih _ k r (cacheFind_validate_entity_some cb wd c e k r h)

/-- Every trace entry whose entity key is already cached receives the
cached result. -/
theorem batchTrace_result_of_cached (cb : String → ValidationResult)
    (wd : String → String → ValidationResult) :
    ∀ (c : Cache) (es : List Entity) (e2 : Entity) (r2 r : ValidationResult),
      cacheFind c (cacheKey e2) = some r →
      (e2, r2) ∈ (batchTrace cb wd c es).1 → r2 = r := by
  intro c es
  induction es generalizing c with
  | nil => intro e2 r2 r _ hmem; exact absurd hmem (List.not_mem_nil _)
  | cons e t ih =>
      intro e2 r2 r hc hmem
      simp only [batchTrace, List.mem_cons] at hmem
      rcases hmem with hmem | hmem
      · have he : e2 = e := congrArg Prod.fst hmem
        have hr : r2 = (validate_entity cb wd c e).1 :=
          congrArg Prod.snd hmem
        rw [hr]
        unfold validate_entity
        rw [he] at hc
        rw [hc]
      · exact ih _ e2 r2 r
          (cacheFind_validate_entity_some cb wd c e _ r hc) hmem

/-- Two trace entries of one batch whose entities share a cache key
receive the same validation result. -/
theorem batchTrace_same_key_same_result (cb : String → ValidationResult)
    (wd : String → String → ValidationResult) :
    ∀ (c : Cache) (es : List Entity) (p q : Entity × ValidationResult),
      p ∈ (batchTrace cb wd c es).1 → q ∈ (batchTrace cb wd c es).1 →
      cacheKey p.1 = cacheKey q.1 → p.2 = q.2 := by
  intro c es
  induction es generalizing c with
  | nil => intro p q hp _ _; exact absurd hp (List.not_mem_nil _)
  | cons e t ih =>
      intro p q hp hq hkey
      simp only [batchTrace, List.mem_cons] at hp hq
      rcases hp with hp | hp <;> rcases hq with hq | hq
      · rw [hp, hq]
      · -- p is the head entry, q is later: q got the cached head result
        have hcache : cacheFind (validate_entity cb wd c e).2
            (cacheKey q.1) = some (validate_entity cb wd c e).1 := by
          rw [← hkey]
          have hp1 : p.1 = e := by rw [hp]
          rw [hp1]
          exact validate_entity_caches_self cb wd c e
        have hq2 : q.2 = (validate_entity cb wd c e).1 := by
          have hqpair : (q.1, q.2) ∈ (batchTrace cb wd
              (validate_entity cb wd c e).2 t).1 := by
            rw [Prod.mk.eta]
            exact hq
          exact batchTrace_result_of_cached cb wd _ t q.1 q.2 _ hcache hqpair
        have hp2 : p.2 = (validate_entity cb wd c e).1 := by rw [hp]
        rw [hp2, hq2]
      · -- q is the head entry, p is later: symmetric
        have hcache : cacheFind (validate_entity cb wd c e).2
            (cacheKey p.1) = some (validate_entity cb wd c e).1 := by
          rw [hkey]
          have hq1 : q.1 = e := by rw [hq]
          rw [hq1]
          exact validate_entity_caches_self cb wd c e
        have hp2 : p.2 = (validate_entity cb wd c e).1 := by
          have hppair : (p.1, p.2) ∈ (batchTrace cb wd
              (validate_entity cb wd c e).2 t).1 := by
            rw [Prod.mk.eta]
            exact hp
          exact batchTrace_result_of_cached cb wd _ t p.1 p.2 _ hcache hppair
        have hq2 : q.2 = (validate_entity cb wd c e).1 := by rw [hq]
        rw [hp2, hq2]
      · exact ih _ p q hp hq hkey

/-- apply_validation keeps the entity name. -/
theorem apply_validation_name (e : Entity) (r : ValidationResult) :
    (apply_validation e r).name = e.name := by
  cases hr : r.confidence <;> simp [apply_validation, hr]

/-- apply_validation keeps the entity type. -/
theorem apply_validation_type (e : Entity) (r : ValidationResult) :
    (apply_validation e r).type = e.type := by
  cases hr : r.confidence <;> simp [apply_validation, hr]

/-- apply_validation never raises the entity confidence. -/
theorem apply_validation_confidence_le (e : Entity) (r : ValidationResult) :
    (apply_validation e r).confidence ≤ e.confidence := by
  cases hr : r.confidence with
  | none => simp [apply_validation, hr]
  | some cq =>
      simp only [apply_validation, hr]
      exact min_le_left _ _

/-- C1: per-entity monotonicity of FactChecker.validate_batch: the
trace pairs each input entity, in order, with the validation result it
receives; the returned validated_entities list is exactly the
order-preserving image of the passing trace entries; and every trace
entry's mutated entity has confidence at most that same entity's own
pre-validation confidence.  This holds for every lookup oracle, every
starting cache state (hence across repeated batches on one validator
instance) and every entity type, duplicates included, so validation can
never raise any entity's confidence above its own prior value. -/
theorem validate_batch_confidence_monotone (cb : String → ValidationResult)
    (wd : String → String → ValidationResult) (c : Cache)
    (es : List Entity) :
    (batchTrace cb wd c es).1.map Prod.fst = es ∧
    (validate_batch cb wd c es).1 =
      (batchTrace cb wd c es).1.filterMap passedOf ∧
    ∀ p ∈ (batchTrace cb wd c es).1,
      (apply_validation p.1 p.2).confidence ≤ p.1.confidence := by
  refine ⟨batchTrace_map_fst cb wd c es, ?_, ?_⟩
  · rw [validate_batch_eq_trace]
  · intro p _
    exact apply_validation_confidence_le p.1 p.2

/-- C10: FactChecker.validate_batch preserves order and identity: the
trace pairs the input entities in order with their results, the returned
validated_entities is the order-preserving image of exactly the passing
entries (each being the input entity with the two permitted in-place
mutations applied), and hallucination_flags lists the failing entries in
input order. -/
theorem validate_batch_order_partition (cb : String → ValidationResult)
    (wd : String → String → ValidationResult) (c : Cache)
    (es : List Entity) :
    (batchTrace cb wd c es).1.map Prod.fst = es ∧
    (validate_batch cb wd c es).1 =
      (batchTrace cb wd c es).1.filterMap passedOf ∧
    (validate_batch cb wd c es).2.1 =
      ((batchTrace cb wd c es).1.filter failedB).map flagOf := by
  refine ⟨batchTrace_map_fst cb wd c es, ?_, ?_⟩
  · rw [validate_batch_eq_trace]
  · rw [validate_batch_eq_trace]

/-- Counting one flag string among the flags of a trace counts the
failing entries that format to that string. -/
theorem count_flags_aux (s : String) :
    ∀ l : List (Entity × ValidationResult),
      ((l.filter failedB).map flagOf).count s =
        (l.filter (fun p => failedB p && (flagOf p == s))).length := by
  intro l
  induction l with
  | nil => rfl
  | cons a t ih =>
      cases hf : failedB a with
      | false => simp [List.filter_cons, hf, ih]
      | true =>
          by_cases hs : flagOf a = s
          · simp [List.filter_cons, List.count_cons, hf, hs, ih]
          · simp [List.filter_cons, List.count_cons, hf, hs, ih]

/-- C2 amended: for every batch and oracle, a failing entity never
appears (by name and type) in validated_entities; its flag string is
appended to hallucination_flags once for each failing occurrence, so the
flag occurs exactly once whenever exactly one failing trace entry
formats to that string (in particular when the batch mentions the
name-and-type pair once). -/
theorem validate_batch_failed_entity_flags (cb : String → ValidationResult)
    (wd : String → String → ValidationResult) (c : Cache)
    (es : List Entity) (e : Entity) (r : ValidationResult)
    (hmem : (e, r) ∈ (batchTrace cb wd c es).1)
    (hfail : r.validated = false) :
    (∀ v ∈ (validate_batch cb wd c es).1,
      ¬(v.name = e.name ∧ v.type = e.type)) ∧
    mk_flag e r ∈ (validate_batch cb wd c es).2.1 ∧
    (validate_batch cb wd c es).2.1.count (mk_flag e r) =
      ((batchTrace cb wd c es).1.filter
        (fun p => failedB p && (flagOf p == mk_flag e r))).length := by
  refine ⟨?_, ?_, ?_⟩
  · intro v hv hnt
    rw [validate_batch_eq_trace] at hv
    rcases List.mem_filterMap.mp hv with ⟨p, hp, hpass⟩
    have hval : p.2.validated = true := by
      by_contra hcon
      simp only [passedOf] at hpass
      rw [if_neg hcon] at hpass
      exact Option.noConfusion hpass
    have hveq : v = apply_validation p.1 p.2 := by
      simp only [passedOf, hval, if_pos] at hpass
      exact (Option.some_inj.mp hpass).symm
    have hname : p.1.name = e.name := by
      rw [← hnt.1, hveq]
      exact (apply_validation_name p.1 p.2).symm
    have htype : p.1.type = e.type := by
      rw [← hnt.2, hveq]
      exact (apply_validation_type p.1 p.2).symm
    have hkey : cacheKey p.1 = cacheKey (e, r).1 := by
      simp only [cacheKey, hname, htype]
    have hres : p.2 = (e, r).2 :=
      batchTrace_same_key_same_result cb wd c es p (e, r) hp hmem hkey
    rw [hres] at hval
    rw [hfail] at hval
    exact Bool.noConfusion hval
  · rw [validate_batch_eq_trace]
    refine List.mem_map.mpr ⟨(e, r), ?_, rfl⟩
    refine List.mem_filter.mpr ⟨hmem, ?_⟩
    simp [failedB, hfail]
  · rw [validate_batch_eq_trace]
    exact count_flags_aux (mk_flag e r) (batchTrace cb wd c es).1

/-- Witness for the amended C2 on the FakeCompanyCorp scenario. -/
theorem validate_batch_failed_entity_flags_witness :
    (fkEnt, vr0) ∈ (batchTrace cb0 wd0 [] [fkEnt]).1 ∧
    vr0.validated = false ∧
    ((∀ v ∈ (validate_batch cb0 wd0 [] [fkEnt]).1,
        ¬(v.name = fkEnt.name ∧ v.type = fkEnt.type)) ∧
      mk_flag fkEnt vr0 ∈ (validate_batch cb0 wd0 [] [fkEnt]).2.1 ∧
      (validate_batch cb0 wd0 [] [fkEnt]).2.1.count (mk_flag fkEnt vr0) =
        ((batchTrace cb0 wd0 [] [fkEnt]).1.filter
          (fun p => failedB p && (flagOf p == mk_flag fkEnt vr0))).length) := by
  have hmem : (fkEnt, vr0) ∈ (batchTrace cb0 wd0 [] [fkEnt]).1 := by
    show (fkEnt, vr0) ∈ [(fkEnt, vr0)]
    exact List.mem_singleton.mpr rfl
  exact ⟨hmem, rfl,
    validate_batch_failed_entity_flags cb0 wd0 [] [fkEnt] fkEnt vr0 hmem rfl⟩

/-- C2 counterexample: a batch containing the same failing entity twice
appends its flag string twice, so the name-and-type flag does not appear
exactly once in hallucination_flags for that batch. -/
theorem validate_batch_duplicate_flag_counterexample :
    vr0.validated = false ∧
    (validate_batch cb0 wd0 [] [fkEnt, fkEnt]).2.1 =
      [mk_flag fkEnt vr0, mk_flag fkEnt vr0] ∧
    (validate_batch cb0 wd0 [] [fkEnt, fkEnt]).2.1.count
      (mk_flag fkEnt vr0) = 2 := by
  refine ⟨rfl, rfl, ?_⟩
  decide

/-- validate_batch distributes over list append, threading the cache. -/
theorem validate_batch_append (cb : String → ValidationResult)
    (wd : String → String → ValidationResult) :
    ∀ (c : Cache) (xs ys : List Entity),
      validate_batch cb wd c (xs ++ ys) =
        ((validate_batch cb wd c xs).1 ++
          (validate_batch cb wd (validate_batch cb wd c xs).2.2 ys).1,
         (validate_batch cb wd c xs).2.1 ++
          (validate_batch cb wd (validate_batch cb wd c xs).2.2 ys).2.1,
         (validate_batch cb wd (validate_batch cb wd c xs).2.2 ys).2.2) := by
  intro c xs
  induction xs generalizing c with
  | nil => intro ys; simp [validate_batch]
  | cons x t ih =>
      intro ys
      simp only [List.cons_append, validate_batch]
      cases hv : (validate_entity cb wd c x).1.validated <;>
        simp [hv, ih]

/-- A key absent from the cache and different from the entity key stays
absent after a validate_entity call. -/
theorem cacheFind_validate_entity_none (cb : String → ValidationResult)
    (wd : String → String → ValidationResult) (c : Cache) (e : Entity)
    (k : String) (h : cacheFind c k = none) (hk : cacheKey e ≠ k) :
    cacheFind (validate_entity cb wd c e).2 k = none := by
  unfold validate_entity
  cases hfind : cacheFind c (cacheKey e) with
  | some rr => exact h
  | none =>
      simp only [cacheFind]
      rw [if_neg hk]
      exact h

/-- A key absent from the cache and unused by a batch stays absent after
the batch. -/
theorem cacheFind_validate_batch_none (cb : String → ValidationResult)
    (wd : String → String → ValidationResult) :
    ∀ (c : Cache) (xs : List Entity) (k : String),
      cacheFind c k = none → (∀ x ∈ xs, cacheKey x ≠ k) →
      cacheFind (validate_batch cb wd c xs).2.2 k = none := by
  intro c xs
  induction xs generalizing c with
  | nil => intro k h _; exact h
  | cons x t ih =>
      intro k h hx
      have hstep : cacheFind (validate_entity cb wd c x).2 k = none :=
        cacheFind_validate_entity_none cb wd c x k h
          (hx x (List.mem_cons_self x t))
      have hrest := ih (validate_entity cb wd c x).2 k hstep
        (fun y hy => hx y (List.mem_cons_of_mem x hy))
      simp only [validate_batch]
      cases hv : (validate_entity cb wd c x).1.validated <;>
        simp [hv, hrest]

/-- Appending a fresh key at the end of a dict makes it readable. -/
theorem dictFind_append_fresh (k : String) (v : JVal) :
    ∀ m : List (String × JVal), hasKey m k = false →
      dictFind (m ++ [(k, v)]) k = some v := by
  intro m
  induction m with
  | nil => intro _; simp [dictFind]
  | cons p t ih =>
      intro hm
      simp only [hasKey, Bool.or_eq_false_iff] at hm
      have hpk : p.1 ≠ k := by
        intro hcon
        simp [hcon] at hm
      simp only [List.cons_append, dictFind]
      rw [if_neg hpk]
      exact ih hm.2

/-- Replacing an existing key in place makes the new value readable. -/
theorem dictFind_map_replace (k : String) (v : JVal) :
    ∀ m : List (String × JVal), hasKey m k = true →
      dictFind (m.map (fun p => if p.1 = k then (k, v) else p)) k =
        some v := by
  intro m
  induction m with
  | nil => intro hm; exact absurd hm Bool.false_ne_true
  | cons p t ih =>
      intro hm
      by_cases hpk : p.1 = k
      · simp only [List.map_cons]
        rw [if_pos hpk]
        simp [dictFind]
      · have ht : hasKey t k = true := by
          simp only [hasKey, Bool.or_eq_true] at hm
          rcases hm with h | h
          · exact absurd (of_decide_eq_true h) hpk
          · exact h
        simp only [List.map_cons]
        rw [if_neg hpk]
        simp only [dictFind]
        rw [if_neg hpk]
        exact ih ht

/-- Reading a key immediately after writing it with dictInsert yields
the written value, whether the key is fresh or replaced. -/
theorem dictFind_dictInsert_self (k : String) (v : JVal)
    (m : List (String × JVal)) :
    dictFind (dictInsert m k v) k = some v := by
  unfold dictInsert
  cases hm : hasKey m k with
  | false =>
      simp only [Bool.false_eq_true, if_false]
      exact dictFind_append_fresh k v m hm
  | true =>
      simp only [if_true]
      exact dictFind_map_replace k v m hm

/-- C8 amended: an entity of unrecognized type whose cache key is not
already cached and is not shared with any earlier entity of the batch is
passed through by FactChecker.validate_batch: it lands in
validated_entities between the results for the earlier and later
entities, keeps its original confidence, carries the skipped metadata
note, and contributes no hallucination flag.  (On a cache hit for its
key, the confidence instead becomes the minimum with the cached value.) -/
theorem validate_batch_unknown_type_fresh (cb : String → ValidationResult)
    (wd : String → String → ValidationResult) (c : Cache)
    (pre post : List Entity) (e : Entity)
    (hty : e.type ≠ "company" ∧ e.type ≠ "person" ∧
      e.type ≠ "location" ∧ e.type ≠ "event")
    (hpre : ∀ x ∈ pre, cacheKey x ≠ cacheKey e)
    (hc : cacheFind c (cacheKey e) = none) :
    (validate_batch cb wd c (pre ++ e :: post)).1 =
      (validate_batch cb wd c pre).1 ++
        apply_validation e (skipped_result e) ::
          (validate_batch cb wd
            ((cacheKey e, skipped_result e) ::
              (validate_batch cb wd c pre).2.2) post).1 ∧
    (apply_validation e (skipped_result e)).confidence = e.confidence ∧
    dictFind (apply_validation e (skipped_result e)).metadata "skipped" =
      some (JVal.bool true) ∧
    (validate_batch cb wd c (pre ++ e :: post)).2.1 =
      (validate_batch cb wd c pre).2.1 ++
        (validate_batch cb wd
          ((cacheKey e, skipped_result e) ::
            (validate_batch cb wd c pre).2.2) post).2.1 := by
  have hor : ¬(e.type = "person" ∨ e.type = "location" ∨
      e.type = "event") := by
    intro hcon
    rcases hcon with h | h | h
    · exact hty.2.1 h
    · exact hty.2.2.1 h
    · exact hty.2.2.2 h
  have hc1 : cacheFind (validate_batch cb wd c pre).2.2 (cacheKey e) =
      none :=
    cacheFind_validate_batch_none cb wd c pre (cacheKey e) hc hpre
  have hve : validate_entity cb wd (validate_batch cb wd c pre).2.2 e =
      (skipped_result e,
       (cacheKey e, skipped_result e) :: (validate_batch cb wd c pre).2.2) := by
    simp [validate_entity, hc1, hty.1, hor]
  have hcons : validate_batch cb wd (validate_batch cb wd c pre).2.2
      (e :: post) =
      (apply_validation e (skipped_result e) ::
        (validate_batch cb wd
          ((cacheKey e, skipped_result e) ::
            (validate_batch cb wd c pre).2.2) post).1,
       (validate_batch cb wd
         ((cacheKey e, skipped_result e) ::
           (validate_batch cb wd c pre).2.2) post).2.1,
       (validate_batch cb wd
         ((cacheKey e, skipped_result e) ::
           (validate_batch cb wd c pre).2.2) post).2.2) := by
    simp only [validate_batch]
    rw [hve]
    simp [skipped_result]
  have happ := validate_batch_append cb wd c pre (e :: post)
  refine ⟨?_, ?_, ?_, ?_⟩
  · rw [happ, hcons]
  · simp [apply_validation, skipped_result]
  · show dictFind (dictUpdate e.metadata [("skipped", JVal.bool true)])
      "skipped" = some (JVal.bool true)
    show dictFind (dictInsert e.metadata "skipped" (JVal.bool true))
      "skipped" = some (JVal.bool true)
    exact dictFind_dictInsert_self "skipped" (JVal.bool true) e.metadata
  · rw [happ, hcons]

/-- Witness for the amended C8 on a fresh unknown-type entity. -/
theorem validate_batch_unknown_type_fresh_witness :
    (eW.type ≠ "company" ∧ eW.type ≠ "person" ∧
      eW.type ≠ "location" ∧ eW.type ≠ "event") ∧
    (∀ x ∈ ([] : List Entity), cacheKey x ≠ cacheKey eW) ∧
    cacheFind [] (cacheKey eW) = none ∧
    ((validate_batch cb0 wd0 [] ([] ++ eW :: [])).1 =
      (validate_batch cb0 wd0 [] []).1 ++
        apply_validation eW (skipped_result eW) ::
          (validate_batch cb0 wd0
            ((cacheKey eW, skipped_result eW) ::
              (validate_batch cb0 wd0 [] []).2.2) []).1 ∧
    (apply_validation eW (skipped_result eW)).confidence = eW.confidence ∧
    dictFind (apply_validation eW (skipped_result eW)).metadata "skipped" =
      some (JVal.bool true) ∧
    (validate_batch cb0 wd0 [] ([] ++ eW :: [])).2.1 =
      (validate_batch cb0 wd0 [] []).2.1 ++
        (validate_batch cb0 wd0
          ((cacheKey eW, skipped_result eW) ::
            (validate_batch cb0 wd0 [] []).2.2) []).2.1) := by
  have hty : eW.type ≠ "company" ∧ eW.type ≠ "person" ∧
      eW.type ≠ "location" ∧ eW.type ≠ "event" := by
    refine ⟨?_, ?_, ?_, ?_⟩ <;> decide
  have hpre : ∀ x ∈ ([] : List Entity), cacheKey x ≠ cacheKey eW := by
    intro x hx
    exact absurd hx (List.not_mem_nil x)
  exact ⟨hty, hpre, rfl,
    validate_batch_unknown_type_fresh cb0 wd0 [] [] [] eW hty hpre rfl⟩

/-- C8 counterexample: two unknown-type entities sharing a name and type
but differing in confidence; the second hits the validator cache and its
confidence is lowered from 19/20 to the cached 9/10, so it is not passed
through with its original confidence unchanged. -/
theorem unknown_type_cache_hit_counterexample :
    (validate_batch cb0 wd0 [] [eWA, eWB]).1.map Entity.confidence =
      [9 / 10, 9 / 10] ∧
    eWB.confidence = 19 / 20 ∧
    ((9 : ℚ) / 10) ≠ 19 / 20 ∧
    (validate_batch cb0 wd0 [] [eWA, eWB]).2.1 = [] := by
  refine ⟨?_, rfl, ?_, rfl⟩
  · have hstep : (validate_batch cb0 wd0 [] [eWA, eWB]).1 =
        [apply_validation eWA (skipped_result eWA),
         apply_validation eWB (skipped_result eWA)] := rfl
    rw [hstep]
    simp [apply_validation, skipped_result, eWA, eWB]
    norm_num [min_def]
  · norm_num

/-- C7 amended: every relationship in the assembled StructuredGraphEvent
comes from the same document's single causal-mapping extraction over that
document's entities (the orchestrator only confidence-filters that list),
and membership of subjects and objects in the document's entity set is
preserved by filtering and assembly whenever the parsed response already
satisfies it — but it is not enforced by parsing. -/
theorem process_article_relationship_provenance
    (extract : String → List Entity)
    (relInfer : String → List Entity → InferResult)
    (cb : String → ValidationResult)
    (wd : String → String → ValidationResult) (cache : Cache)
    (sumInfer : String → List Entity → List CausalRelationship → InferResult)
    (modelName articleId content : String)
    (hne : extract content ≠ []) :
    (∀ rel ∈ (process_article extract relInfer cb wd cache sumInfer
        modelName articleId content).1.relationships,
      rel ∈ (extract_relationships (relInfer content (extract content))
        content (extract content)).1) ∧
    ((∀ rel ∈ (extract_relationships (relInfer content (extract content))
        content (extract content)).1,
        rel.subject.name ∈ (extract content).map Entity.name ∧
        rel.object.name ∈ (extract content).map Entity.name) →
      ∀ rel ∈ (process_article extract relInfer cb wd cache sumInfer
          modelName articleId content).1.relationships,
        rel.subject.name ∈ (extract content).map Entity.name ∧
        rel.object.name ∈ (extract content).map Entity.name) := by
  have hrel : (process_article extract relInfer cb wd cache sumInfer
      modelName articleId content).1.relationships =
      filter_by_confidence
        ((extract_relationships (relInfer content (extract content))
          content (extract content)).1) (7 / 10) := by
    rcases hl : extract content with _ | ⟨a, t⟩
    · exact absurd hl hne
    · simp [process_article, hl]
  have hmem : ∀ rel ∈ (process_article extract relInfer cb wd cache
      sumInfer modelName articleId content).1.relationships,
      rel ∈ (extract_relationships (relInfer content (extract content))
        content (extract content)).1 := by
    intro rel hr
    rw [hrel] at hr
    simp only [filter_by_confidence] at hr
    exact (List.mem_filter.mp hr).1
  exact ⟨hmem, fun hall rel hr => hall rel (hmem rel hr)⟩

/-- Witness for the amended C7 on a concrete two-entity document. -/
theorem process_article_relationship_provenance_witness :
    extract2 "doc" ≠ [] ∧
    ((∀ rel ∈ (process_article extract2 relInferGhost cb0 wd0 [] sumInfer0
        "m" "a" "doc").1.relationships,
      rel ∈ (extract_relationships (relInferGhost "doc" (extract2 "doc"))
        "doc" (extract2 "doc")).1) ∧
    ((∀ rel ∈ (extract_relationships (relInferGhost "doc" (extract2 "doc"))
        "doc" (extract2 "doc")).1,
        rel.subject.name ∈ (extract2 "doc").map Entity.name ∧
        rel.object.name ∈ (extract2 "doc").map Entity.name) →
      ∀ rel ∈ (process_article extract2 relInferGhost cb0 wd0 [] sumInfer0
          "m" "a" "doc").1.relationships,
        rel.subject.name ∈ (extract2 "doc").map Entity.name ∧
        rel.object.name ∈ (extract2 "doc").map Entity.name)) := by
  have hne : extract2 "doc" ≠ [] := by
    simp [extract2]
  exact ⟨hne, process_article_relationship_provenance extract2
    relInferGhost cb0 wd0 [] sumInfer0 "m" "a" "doc" hne⟩

set_option maxHeartbeats 1000000 in
/-- C7 counterexample: with a causal-mapping response naming a subject
entity Ghost outside the document's entity set, the assembled event
contains a relationship whose subject is not drawn from the document's
extracted entities. -/
theorem relationship_outside_entities_counterexample :
    (process_article extract2 relInferGhost cb0 wd0 [] sumInfer0 "m" "a"
      "doc").1.relationships.map (fun rel => rel.subject.name) =
    ["Ghost"] ∧
    "Ghost" ∉ (extract2 "doc").map Entity.name := by
  have hred : (process_article extract2 relInferGhost cb0 wd0 [] sumInfer0
      "m" "a" "doc").1.relationships =
      filter_by_confidence ((extract_relationships
        (InferResult.ok ghostJson) "doc" [acmeEnt, bobEnt]).1) (7 / 10) := rfl
  constructor
  · rw [hred]
    simp +decide [extract_relationships, unwrap_relationships, ghostJson,
      parseRelJ, parseEntityJ, lookupKey, asString, asNum, optStringField,
      filter_by_confidence, List.filterMap_cons, List.filterMap_nil]
    norm_num
  · simp +decide [extract2, acmeEnt, bobEnt]
